import Mathlib

/-!
Verification development for the UniFi WAN Home Assistant integration
(`custom_components/unifi_wan`).

The Python source is shallowly embedded: JSON-like Python values become the
inductive type `Py`, Python `None` of an optional variable becomes `Option`,
raising code is modelled in `Except PyErr`, floats used by the usage
accounting engine become `ℚ` (the arithmetic performed is exact on the
modelled inputs), and `datetime` values become a record of a time stamp in
seconds together with a calendar date.
-/

/-- A JSON-like Python value, as decoded from the controller responses.
JSON numbers are modelled as integers (the fields read by this integration
are byte counts, rates and epoch seconds). -/
inductive Py where
  | none
  | bool (b : Bool)
  | int (n : Int)
  | str (s : String)
  | list (xs : List Py)
  | dict (kvs : List (String × Py))
deriving Repr

/-- Exceptions that the embedded code can raise. -/
inductive PyErr where
  | attributeError
  | typeError
  | valueError
deriving DecidableEq, Repr

/-- Python truthiness (`bool(v)`) for the modelled values. -/
def truthy : Py → Bool
  | .none => false
  | .bool b => b
  | .int n => n != 0
  | .str s => !s.isEmpty
  | .list xs => !xs.isEmpty
  | .dict kvs => !kvs.isEmpty

/-- `a or b` in Python: `a` when truthy, else `b`. -/
def pyOr (a b : Py) : Py := if truthy a then a else b

/-- Key lookup in a dict value (first matching key; JSON objects decoded by
the client have unique keys). -/
def dictGet (kvs : List (String × Py)) (k : String) : Option Py :=
  (kvs.find? (fun kv => kv.1 = k)).map (·.2)

/-- `d.get(k, dflt)`. Python raises `AttributeError` when the receiver is not
a dict; every call site modelled below either guards the receiver
(`isinstance` / truthiness checks in the source) or has a dict receiver by
construction, except the one unguarded `None.get` in `_extract_wan_data`,
which is modelled explicitly there as an error. -/
def pyGetD (v : Py) (k : String) (dflt : Py) : Py :=
  match v with
  | .dict kvs => (dictGet kvs k).getD dflt
  | _ => dflt

/-- `d.get(k)` (default `None`). -/
def pyGet (v : Py) (k : String) : Py := pyGetD v k .none

/-- `k in d` for a dict receiver. -/
def hasKey (v : Py) (k : String) : Bool :=
  match v with
  | .dict kvs => kvs.any (fun kv => kv.1 = k)
  | _ => false

/-- `isinstance(v, dict)`. -/
def pyIsDict : Py → Bool
  | .dict _ => true
  | _ => false

/-- Iteration (`for x in v`): lists yield elements, dicts yield their keys,
strings yield their characters; other values raise `TypeError`. -/
def pyIter : Py → Except PyErr (List Py)
  | .list xs => .ok xs
  | .dict kvs => .ok (kvs.map (fun kv => Py.str kv.1))
  | .str s => .ok (s.toList.map (fun c => Py.str (String.singleton c)))
  | _ => .error .typeError

/-- `v == t` for a string literal `t` (Python equality between a value and a
string is `False` unless the value is an equal string). -/
def pyEqStr (v : Py) (t : String) : Bool :=
  match v with
  | .str s => s = t
  | _ => false

mutual
/-- Python `==` on the modelled values (structural equality; the numeric
cross-type equalities of Python, such as `True == 1`, do not arise for the
JSON-decoded fields compared by this integration). -/
def pyEqB : Py → Py → Bool
  | .none, .none => true
  | .bool a, .bool b => a == b
  | .int a, .int b => a == b
  | .str a, .str b => a == b
  | .list xs, .list ys => pyEqBList xs ys
  | .dict xs, .dict ys => pyEqBDict xs ys
  | _, _ => false

/-- Elementwise Python `==` on lists. -/
def pyEqBList : List Py → List Py → Bool
  | [], [] => true
  | x :: xs, y :: ys => pyEqB x y && pyEqBList xs ys
  | _, _ => false

/-- Entrywise Python `==` on dicts (objects decoded from JSON preserve key
order, so ordered comparison coincides on the modelled payloads). -/
def pyEqBDict : List (String × Py) → List (String × Py) → Bool
  | [], [] => true
  | (k1, v1) :: xs, (k2, v2) :: ys => k1 == k2 && pyEqB v1 v2 && pyEqBDict xs ys
  | _, _ => false
end

/-! ## `_extract_wan_data` (custom_components/unifi_wan/__init__.py) -/

/-- `GATEWAY_DEVICES` from `const.py`. -/
def GATEWAY_DEVICES : List String := ["udm", "ugw", "uxg", "uxg-pro"]

/-- The `UniFiWanData` dataclass: devices (the raw `data` value), selected
gateway, uplink section, and the WAN slot mapping. -/
structure UniFiWanData where
  devices : Py
  gateway : Option Py
  uplink : Py
  wan : List (Nat × Py)
deriving Repr

/-- Sort key used on gateway candidates:
`(not d.get("adopted", True), "uplink" not in d)`. -/
def gwSortKey (d : Py) : Bool × Bool :=
  (!(truthy (pyGetD d "adopted" (.bool true))), !(hasKey d "uplink"))

/-- Strict lexicographic order on the sort key (`False < True`). -/
def gwKeyLt (a b : Bool × Bool) : Bool :=
  (!a.1 && b.1) || (a.1 == b.1 && !a.2 && b.2)

/-- Stable insertion of one element into a list sorted by `gwSortKey`:
the element goes after every existing element whose key is not strictly
greater. -/
def insertByGwKey (x : Py) : List Py → List Py
  | [] => [x]
  | y :: ys => if gwKeyLt (gwSortKey x) (gwSortKey y) then x :: y :: ys else y :: insertByGwKey x ys

/-- `candidates.sort(key=lambda d: (not d.get("adopted", True), "uplink" not in d))`.
Python list sort is stable; a stable insertion sort on the same key computes
the same list. -/
def sortByGwKey (l : List Py) : List Py := l.foldl (fun acc x => insertByGwKey x acc) []

/-- `[d for d in devices if isinstance(d, dict) and d.get("type") == t]`. -/
def candidatesFor (devices : List Py) (t : String) : List Py :=
  devices.filter (fun d => pyIsDict d && pyEqStr (pyGet d "type") t)

/-- The gateway-selection loop of `_extract_wan_data`: first device-type tag
with a nonempty candidate list wins, candidates sorted by `gwSortKey`. -/
def selectGatewayGo (devices : List Py) : List String → Option Py
  | [] => Option.none
  | t :: ts =>
    let cs := candidatesFor devices t
    if cs.isEmpty then selectGatewayGo devices ts else (sortByGwKey cs).head?

/-- Gateway selection over `GATEWAY_DEVICES`. -/
def selectGateway (devices : List Py) : Option Py :=
  selectGatewayGo devices GATEWAY_DEVICES

/-- `k.startswith("WAN")`, computed on the character list so that concrete
evaluation reduces. -/
def startsWithWAN (k : String) : Bool :=
  match k.toList with
  | 'W' :: 'A' :: 'N' :: _ => true
  | _ => false

/-- The WAN-number collection loop of `_extract_wan_data`:
`"WAN"` adds slot 1 to the set; any other key starting with `"WAN"` executes
`wan_interface.add(int(wan_interface[3:]))`, which raises `AttributeError`
because `wan_interface` is a string (the attribute lookup `.add` fails before
the argument is evaluated); other keys are skipped. Dict keys are unique, so
the resulting set is represented by the (duplicate-free) list. -/
def collectWanNumbers : List String → Except PyErr (List Nat)
  | [] => .ok []
  | k :: rest =>
    if k = "WAN" then do
      let ns ← collectWanNumbers rest
      .ok (1 :: ns)
    else if startsWithWAN k then .error .attributeError
    else collectWanNumbers rest

/-- `.keys()` of a value: dict receivers yield their keys, any other receiver
raises `AttributeError`. -/
def pyKeys : Py → Except PyErr (List String)
  | .dict kvs => .ok (kvs.map (·.1))
  | _ => .error .attributeError

/-- The per-slot section binding of `_extract_wan_data`: slot 1 is
`gateway.get("wan1") or gateway.get("wan")`, slot k is `gateway.get("wan" + str(k))`,
each under the `if gateway else {}` conditional of the source. -/
def wanSlotSection (gateway : Option Py) (n : Nat) : Py :=
  match gateway with
  | some g =>
    if truthy g then
      if n = 1 then pyOr (pyGet g "wan1") (pyGet g "wan")
      else pyGet g ("wan" ++ toString n)
    else .dict []
  | Option.none => .dict []

/-- `_extract_wan_data`: process one raw JSON payload into `UniFiWanData`. -/
def extractWanData (payload : Py) : Except PyErr UniFiWanData := do
  let devicesVal : Py :=
    match payload with
    | .dict kvs => pyOr ((dictGet kvs "data").getD (.list [])) (.list [])
    | _ => .list []
  let devs ← pyIter devicesVal
  let gateway := selectGateway devs
  let uplink : Py :=
    match gateway with
    | some g => if truthy g then pyOr (pyGet g "uplink") (.dict []) else .dict []
    | Option.none => .dict []
  -- Source line 115: `(gateway.get("last_wan_interfaces") or {}).keys()` has no
  -- `if gateway` guard, so a missing gateway dereferences `None` and raises.
  let lwi ← match gateway with
    | some g => Except.ok (pyOr (pyGet g "last_wan_interfaces") (.dict []))
    | Option.none => Except.error PyErr.attributeError
  let wanInterfaces ← pyKeys lwi
  let wanNumbers ← collectWanNumbers wanInterfaces
  let wan : List (Nat × Py) := wanNumbers.map (fun n => (n, wanSlotSection gateway n))
  return ⟨devicesVal, gateway, uplink, wan⟩

/-! ## `sensor.py`: gateway picking and active-WAN inference -/

/-- The inner loop of `_pick_gateway` in `sensor.py`: first device of type `t`. -/
def pickGatewayGo (data : List Py) : List String → Option Py
  | [] => Option.none
  | t :: ts =>
    match data.find? (fun dev => pyIsDict dev && pyEqStr (pyGet dev "type") t) with
    | some dev => some dev
    | Option.none => pickGatewayGo data ts

/-- `_pick_gateway` from `sensor.py`: pick the first device whose `type` is
`"udm"`, then `"ugw"`; `None` for non-dict payloads or a non-list `data`. -/
def pickGateway (payload : Py) : Option Py :=
  match payload with
  | .dict kvs =>
    match (dictGet kvs "data").getD .none with
    | .list data => pickGatewayGo data ["udm", "ugw"]
    | _ => Option.none
  | _ => Option.none

/-- `_wan_section`: the `wan1` slot prefers the `wan1` key with fallback to
the legacy `wan` key; `wan2` and `wan` read their keys directly. A falsy
gateway yields `None`. -/
def wanSection (gw : Py) (which : String) : Py :=
  if ¬ truthy gw then .none
  else if which = "wan1" then pyOr (pyGet gw "wan1") (pyGet gw "wan")
  else if which = "wan2" then pyGet gw "wan2"
  else if which = "wan" then pyGet gw "wan"
  else .none

/-- ASCII lower-casing of one character (`str.lower`; the modelled name and
comment fields are ASCII). -/
def charLower (c : Char) : Char :=
  if 'A' ≤ c ∧ c ≤ 'Z' then Char.ofNat (c.toNat + 32) else c

/-- The whitespace characters removed by `str.strip()` on the modelled
fields. -/
def isSpaceChar (c : Char) : Bool := c = ' ' || c = '\t' || c = '\n' || c = '\r'

/-- `s.strip().lower()` computed on the character list. -/
def stripLower (s : String) : String :=
  String.mk ((((s.toList.dropWhile isSpaceChar).reverse.dropWhile
    isSpaceChar).reverse).map charLower)

/-- `_norm(s)`: `(s or "").strip().lower()`. A truthy non-string would raise
`AttributeError` in Python; the fields this is applied to are strings or
`None` on every modelled input. -/
def pyNorm (v : Py) : String :=
  match pyOr v (.str "") with
  | .str s => stripLower s
  | _ => ""

/-- Truthiness of the intersection of two Python string sets, each given by
its enumerated elements: `bool(xs & ys)`. -/
def setInterNonempty (xs ys : List String) : Bool :=
  xs.any (fun x => ys.contains x)

/-- `_infer_active_wan_id`: returns the active WAN identifier and the debug
mapping (its `update` call followed by the `match` entry, in insertion
order). -/
def inferActiveWanId (gw : Py) : Option String × List (String × Py) :=
  if ¬ truthy gw then (Option.none, [])
  else
    let uplink := pyOr (pyGet gw "uplink") (.dict [])
    let uIp := pyGet uplink "ip"
    let uIf := pyGet uplink "ifname"
    let uName := pyGet uplink "name"
    let uComment := pyGet uplink "comment"
    let w1 := pyOr (wanSection gw "wan1") (.dict [])
    let w2 := pyOr (wanSection gw "wan2") (.dict [])
    let debug : List (String × Py) :=
      [("uplink_ip", uIp), ("uplink_ifname", uIf), ("uplink_name", uName),
       ("uplink_comment", uComment), ("wan1_ip", pyGet w1 "ip"),
       ("wan2_ip", pyGet w2 "ip"), ("wan1_ifname", pyGet w1 "ifname"),
       ("wan2_ifname", pyGet w2 "ifname"), ("wan1_up", pyGet w1 "up"),
       ("wan2_up", pyGet w2 "up")]
    -- 1) IP match
    if truthy uIp && pyEqB uIp (pyGet w1 "ip") then
      (some "WAN1", debug ++ [("match", .str "ip==wan1.ip")])
    else if truthy uIp && pyEqB uIp (pyGet w2 "ip") then
      (some "WAN2", debug ++ [("match", .str "ip==wan2.ip")])
    -- 2) ifname match
    else if truthy uIf && pyEqB uIf (pyGet w1 "ifname") then
      (some "WAN1", debug ++ [("match", .str "ifname==wan1.ifname")])
    else if truthy uIf && pyEqB uIf (pyGet w2 "ifname") then
      (some "WAN2", debug ++ [("match", .str "ifname==wan2.ifname")])
    else
      -- 3) name/comment match (best-effort)
      let uNames := [pyNorm uName, pyNorm uComment]
      let w1Names := [pyNorm (pyGet w1 "name"), pyNorm (pyGet w1 "comment")]
      let w2Names := [pyNorm (pyGet w2 "name"), pyNorm (pyGet w2 "comment")]
      if setInterNonempty uNames w1Names then
        (some "WAN1", debug ++ [("match", .str "name/comment≈wan1")])
      else if setInterNonempty uNames w2Names then
        (some "WAN2", debug ++ [("match", .str "name/comment≈wan2")])
      else
        -- 4) fallback: if only one is up
        let w1Up := truthy (pyGet w1 "up")
        let w2Up := truthy (pyGet w2 "up")
        if w1Up && !w2Up then
          (some "WAN1", debug ++ [("match", .str "fallback:wan1.up")])
        else if w2Up && !w1Up then
          (some "WAN2", debug ++ [("match", .str "fallback:wan2.up")])
        else
          -- legacy single-WAN key (wan)
          let w := pyOr (wanSection gw "wan") (.dict [])
          if truthy (pyGet w "up") then
            (some "WAN", debug ++ [("match", .str "legacy:wan.up")])
          else (Option.none, debug ++ [("match", .str "unknown")])

/-- Uplink field values used to build a concrete gateway payload; empty
strings model absent/falsy fields. -/
structure UplinkFields where
  ip : String
  ifname : String
  name : String
  comment : String

/-- WAN-slot field values used to build a concrete gateway payload. -/
structure SlotFields where
  ip : String
  ifname : String
  name : String
  comment : String
  up : Bool

/-- The uplink section of a constructed gateway. -/
def uplinkDict (u : UplinkFields) : Py :=
  .dict [("ip", .str u.ip), ("ifname", .str u.ifname), ("name", .str u.name),
         ("comment", .str u.comment)]

/-- A WAN-slot section of a constructed gateway. -/
def slotDict (w : SlotFields) : Py :=
  .dict [("ip", .str w.ip), ("ifname", .str w.ifname), ("name", .str w.name),
         ("comment", .str w.comment), ("up", .bool w.up)]

/-- A well-formed two-slot gateway device dict, with an optional legacy
`wan` section carrying an `up` flag. -/
def mkGw (u : UplinkFields) (w1 w2 : SlotFields) (legacyUp : Option Bool) : Py :=
  .dict ([("type", .str "udm"), ("uplink", uplinkDict u), ("wan1", slotDict w1),
          ("wan2", slotDict w2)] ++
    (match legacyUp with
     | some b => [("wan", Py.dict [("up", Py.bool b)])]
     | Option.none => []))

/-- Truthiness of the legacy `wan.up` flag of `mkGw`. -/
def legacyUpB : Option Bool → Bool
  | some b => b
  | Option.none => false

/-! ## Dates and the billing-period computation -/

/-- A Python `datetime.date`. -/
structure PyDate where
  year : Int
  month : Int
  day : Int
deriving DecidableEq, Repr

/-- Gregorian leap-year rule. -/
def isLeapYear (y : Int) : Bool :=
  y % 4 == 0 && (y % 100 != 0 || y % 400 == 0)

/-- Number of days of month `m` of year `y`. -/
def daysInMonth (y m : Int) : Int :=
  if m = 2 then (if isLeapYear y then 29 else 28)
  else if m = 4 ∨ m = 6 ∨ m = 9 ∨ m = 11 then 30
  else 31

/-- `datetime.date(y, m, d)`: raises `ValueError` when the components are out
of range. -/
def mkPyDate (y m d : Int) : Except PyErr PyDate :=
  if 1 ≤ m ∧ m ≤ 12 ∧ 1 ≤ d ∧ d ≤ daysInMonth y m then .ok ⟨y, m, d⟩
  else .error .valueError

/-- A Python `datetime`: the time stamp in seconds (used by subtraction and
`total_seconds()`) together with the calendar date (used by `now.date()` and
its ISO string; ISO day strings are compared by the source, and `isoformat`
is injective on dates, so dates are compared directly). -/
structure PyDateTime where
  ts : ℚ
  date : PyDate
deriving DecidableEq, Repr

/-- `_current_billing_period_start(now, reset_day)` from `sensor.py`:
clamp the reset day into 1..31, then return the reset day in the current
month when `now` is on/after it, else in the previous month (December of the
previous year in January). -/
def currentBillingPeriodStart (now : PyDateTime) (resetDay : Int) : Except PyErr PyDate :=
  let r := max 1 (min resetDay 31)
  let d := now.date
  if d.day ≥ r then mkPyDate d.year d.month r
  else if d.month = 1 then mkPyDate (d.year - 1) 12 r
  else mkPyDate d.year (d.month - 1) r

/-! ## The usage accounting engine (`_BaseTotalMB` and its subclasses) -/

/-- `float(val)` as used on the rate fields, with the enclosing
`try/except` returning `None` on failure: ints and bools convert, `None` is
already filtered by the caller, and containers raise (caught to `None`).
Numeric strings are not modelled (the controller emits JSON numbers for the
rate fields). -/
def pyFloat : Py → Option ℚ
  | .int n => some (n : ℚ)
  | .bool b => some (if b then 1 else 0)
  | _ => Option.none

/-- `_BaseTotalMB._get_rate_bytes_per_sec`: read `rx_bytes-r` (direction
`"down"`) or `tx_bytes-r` (otherwise) from the uplink of the picked gateway;
`None` when absent or non-numeric. -/
def getRateBytesPerSec (payload : Py) (direction : String) : Option ℚ :=
  let gw := pickGateway payload
  let uplink := pyOr (pyGet (gw.getD (.dict [])) "uplink") (.dict [])
  let key := if direction = "down" then "rx_bytes-r" else "tx_bytes-r"
  match pyGet uplink key with
  | .none => Option.none
  | v => pyFloat v

/-- The mutable counter fields shared by all four total sensors:
`self._value_mb` and `self._last_update`. -/
structure TotState where
  value_mb : ℚ
  last_update : Option PyDateTime
deriving DecidableEq, Repr

/-- `_BaseTotalMB._integrate(now)`: no usable rate only advances the
baseline; otherwise the elapsed seconds come from the baseline (falling back
to the coordinator update interval, or 0, when no baseline exists);
non-positive elapsed time discards the sample but still sets the baseline to
`now`; otherwise the rate is integrated over the elapsed time and added in
megabytes. -/
def integrate (payload : Py) (direction : String) (updateInterval : Option ℚ)
    (now : PyDateTime) (s : TotState) : TotState :=
  match getRateBytesPerSec payload direction with
  | Option.none => { s with last_update := some now }
  | some rate =>
    let deltaSeconds : ℚ :=
      match s.last_update with
      | some lu => now.ts - lu.ts
      | Option.none => updateInterval.getD 0
    if deltaSeconds ≤ 0 then { s with last_update := some now }
    else { value_mb := s.value_mb + rate * deltaSeconds / (1024 * 1024),
           last_update := some now }

/-- State of a daily total sensor: the shared counter fields plus
`self._day_str`. -/
structure TodayState where
  tot : TotState
  day_str : Option PyDate
deriving DecidableEq, Repr

/-- `async_added_to_hass` of the daily total sensors. `restored` models the
result of `async_get_last_state()`: `None` when no usable state was
persisted, otherwise the parsed state value (`None` for an unparsable
string, which the source maps to 0), the persisted `day` attribute (`None`
when absent or falsy) and the parsed `last_update` attribute (`None` when
absent or unparsable, which the source maps to `now`). -/
def addedToHassToday (restored : Option (Option ℚ × Option PyDate × Option PyDateTime))
    (now : PyDateTime) : TodayState :=
  match restored with
  | some (v, d, lu) => ⟨⟨v.getD 0, some (lu.getD now)⟩, some (d.getD now.date)⟩
  | Option.none => ⟨⟨0, some now⟩, some now.date⟩

/-- `_handle_coordinator_update` of the daily total sensors: on a day change
reset the value, adopt the new day and restart the baseline; then integrate;
then clamp so the value never decreases within the (possibly just reset)
day. -/
def handleUpdateToday (payload : Py) (direction : String) (updateInterval : Option ℚ)
    (now : PyDateTime) (s : TodayState) : TodayState :=
  let s1 := if s.day_str = some now.date then s
            else ⟨⟨0, some now⟩, some now.date⟩
  let old := s1.tot.value_mb
  let t := integrate payload direction updateInterval now s1.tot
  let t1 := if t.value_mb < old then { t with value_mb := old } else t
  ⟨t1, s1.day_str⟩

/-- State of a monthly total sensor: the shared counter fields plus
`self._period_start` and the clamped `self._reset_day`. -/
structure MonthState where
  tot : TotState
  period_start : Option PyDate
  reset_day : Int
deriving DecidableEq, Repr

/-- `_handle_coordinator_update` of the monthly total sensors: compute the
current billing-period start (this propagates the `ValueError` of
`_current_billing_period_start` when the reset day does not exist in the
target month), reset on a period change, then integrate and clamp as for
the daily sensors. -/
def handleUpdateMonth (payload : Py) (direction : String) (updateInterval : Option ℚ)
    (now : PyDateTime) (s : MonthState) : Except PyErr MonthState :=
  match currentBillingPeriodStart now s.reset_day with
  | .error e => .error e
  | .ok cur =>
    let s1 := if s.period_start = some cur then s
              else { s with tot := ⟨0, some now⟩, period_start := some cur }
    let old := s1.tot.value_mb
    let t := integrate payload direction updateInterval now s1.tot
    let t1 := if t.value_mb < old then { t with value_mb := old } else t
    .ok { s1 with tot := t1 }

/-- A minimal payload whose picked gateway reports the given byte rate in
both directions. -/
def mkRatePayload (rate : Int) : Py :=
  .dict [("data", .list [.dict [("type", .str "udm"),
    ("uplink", .dict [("rx_bytes-r", .int rate), ("tx_bytes-r", .int rate)])]])]

/-! ## The speed-test orchestrator (`_run_speedtest_now` in `__init__.py`) -/

/-- Externally visible actions performed by one `_run_speedtest_now` call, in
program order. `dispatch` is the broadcast of the running-flag signal
(`async_dispatcher_send` inside `_dispatch_running`). -/
inductive Ev where
  | refreshDevice
  | refreshRates
  | runSpeedtest (mac : String)
  | sleepSettle
  | dispatch
  | logWarning
  | logError
deriving DecidableEq, Repr

/-- Truthiness of the resolved `mac_local` value (`if not mac_local`): absent
or empty MAC strings are falsy. -/
def truthyOptStr : Option String → Bool
  | some s => !s.isEmpty
  | Option.none => false

/-- `set_speedtest_running(is_running)`: no state change and no broadcast
when the flag already has the requested value, otherwise flip and
broadcast. -/
def setSpeedtestRunning (running isRunning : Bool) : Bool × List Ev :=
  if running = isRunning then (running, []) else (isRunning, [.dispatch])

/-- `_run_speedtest_now()`, as the sequence of externally visible actions and
the final value of the `speedtest_running` flag.
`running` is the flag on entry; `mac1` is the gateway MAC resolved from the
current coordinator data (`None` when no gateway or no MAC); `mac2` is the
MAC resolved after the one refresh retry; `remoteRaises` selects the
`except` branch of the `try` (the remote call itself was issued when it
raises); `hasRates` tells whether the rates coordinator exists. The `finally`
block always refreshes and clears the flag. -/
def runSpeedtestNow (running : Bool) (mac1 mac2 : Option String)
    (remoteRaises : Bool) (hasRates : Bool) : Bool × List Ev :=
  let macLocal := if truthyOptStr mac1 then mac1 else mac2
  let evs0 : List Ev := if truthyOptStr mac1 then [] else [.refreshDevice]
  if ¬ truthyOptStr macLocal then (running, evs0 ++ [.logWarning])
  else
    let m := macLocal.getD ""
    let r1 := (setSpeedtestRunning running true).1
    let evs1 := (setSpeedtestRunning running true).2
    let evsTry : List Ev :=
      if remoteRaises then [.runSpeedtest m, .logError]
      else [.runSpeedtest m, .sleepSettle]
    let evsFin : List Ev := [.refreshDevice] ++ (if hasRates then [.refreshRates] else [])
    let r2 := (setSpeedtestRunning r1 false).1
    let evs2 := (setSpeedtestRunning r1 false).2
    (r2, evs0 ++ evs1 ++ evsTry ++ evsFin ++ evs2)

/-- A `PyDateTime` `t` seconds into 2024-05-01 (all within one day). -/
def dtm (t : ℚ) : PyDateTime := ⟨t, ⟨2024, 5, 1⟩⟩

/-! ## Claim theorems -/

/-- C1: the claim that `_extract_wan_data` returns a null-gateway snapshot
without raising for gateway-free (or malformed) payloads fails on the code:
for a payload with an empty device list, for one whose only device is a
switch, and for a non-dict payload, the unguarded
`gateway.get("last_wan_interfaces")` dereferences `None` and raises
`AttributeError`. -/
theorem extract_wan_data_no_gateway_raises :
    extractWanData (Py.dict [("data", Py.list [])]) = .error .attributeError ∧
    extractWanData (Py.dict [("data", Py.list [Py.dict [("type", Py.str "usw"),
      ("adopted", Py.bool true)]])]) = .error .attributeError ∧
    extractWanData Py.none = .error .attributeError :=
  ⟨rfl, rfl, rfl⟩

/-- C2: the claim that interface keys `WANk` (k ≥ 2) map to slot k fails on
the code: a gateway declaring `WAN` and `WAN2` makes `_extract_wan_data`
raise `AttributeError` at `wan_interface.add(...)` (a string has no `add`
attribute), instead of producing the slot mapping {1, 2}. -/
theorem extract_wan_data_wan2_raises :
    extractWanData (Py.dict [("data", Py.list [Py.dict [("type", Py.str "udm"),
      ("last_wan_interfaces", Py.dict [("WAN", Py.dict [("ix", Py.int 1)]),
        ("WAN2", Py.dict [("ix", Py.int 2)])]),
      ("wan1", Py.dict [("up", Py.bool true)]),
      ("wan2", Py.dict [("up", Py.bool true)])]])]) = .error .attributeError :=
  rfl

/-- C3: for the sample sequence 100 B/s at t = 0 (first sample after the
entity is added at t = 0 with no restored state), t = 10 s and t = 20 s,
all within one day, the first sample contributes no increment and the
accumulated total after the third sample is exactly 2000 bytes
(2000 / 1048576 MB) — even with a nonzero coordinator update interval. -/
theorem usage_first_sample_no_increment_scenario :
    (handleUpdateToday (mkRatePayload 100) "down" (some 30) (dtm 0)
      (addedToHassToday Option.none (dtm 0))).tot.value_mb = 0 ∧
    (handleUpdateToday (mkRatePayload 100) "down" (some 30) (dtm 20)
      (handleUpdateToday (mkRatePayload 100) "down" (some 30) (dtm 10)
        (handleUpdateToday (mkRatePayload 100) "down" (some 30) (dtm 0)
          (addedToHassToday Option.none (dtm 0))))).tot.value_mb = 2000 / 1048576 := by
  constructor
  · simp [handleUpdateToday, addedToHassToday, integrate, getRateBytesPerSec,
      pickGateway, pickGatewayGo, mkRatePayload, pyGet, pyGetD, dictGet, pyOr,
      pyIsDict, pyEqStr, truthy, pyFloat, dtm]
  · simp [handleUpdateToday, addedToHassToday, integrate, getRateBytesPerSec,
      pickGateway, pickGatewayGo, mkRatePayload, pyGet, pyGetD, dictGet, pyOr,
      pyIsDict, pyEqStr, truthy, pyFloat, dtm]
    norm_num

/-- C4 counterexample: the claim that a discarded sample (elapsed ≤ 0)
leaves the integration baseline unchanged is false: with baseline t = 10 and
a sample at t = 5 (elapsed −5), `_integrate` applies no increment but sets
`_last_update` to the new timestamp 5, not the old 10. -/
theorem integrate_discard_moves_baseline_cex :
    (integrate (mkRatePayload 100) "down" Option.none (dtm 5)
      ⟨5, some (dtm 10)⟩).last_update = some (dtm 5) ∧
    (integrate (mkRatePayload 100) "down" Option.none (dtm 5)
      ⟨5, some (dtm 10)⟩).value_mb = 5 ∧
    dtm 5 ≠ dtm 10 := by
  refine ⟨?_, ?_, by simp [dtm]⟩ <;>
    simp [integrate, getRateBytesPerSec, pickGateway, pickGatewayGo, mkRatePayload,
      pyGet, pyGetD, dictGet, pyOr, pyIsDict, pyEqStr, truthy, pyFloat, dtm] <;>
    norm_num

/-- C4 (amended): when a usable rate is present and the elapsed time from
the stored baseline is ≤ 0, the sample is discarded with no increment, and
the baseline is updated to the new timestamp (not left unchanged). -/
theorem integrate_discard_no_increment (payload : Py) (direction : String)
    (updateInterval : Option ℚ) (now : PyDateTime) (s : TotState)
    (lu : PyDateTime) (r : ℚ)
    (hr : getRateBytesPerSec payload direction = some r)
    (hl : s.last_update = some lu)
    (hle : now.ts - lu.ts ≤ 0) :
    integrate payload direction updateInterval now s = ⟨s.value_mb, some now⟩ := by
  unfold integrate
  rw [hr, hl]
  simp [hle]

/-- C4 witness: a concrete discarded sample (rate 100 B/s, baseline t = 10,
sample t = 5). -/
theorem integrate_discard_no_increment_witness :
    integrate (mkRatePayload 100) "down" Option.none (dtm 5) ⟨7, some (dtm 10)⟩
      = ⟨7, some (dtm 5)⟩ :=
  integrate_discard_no_increment (mkRatePayload 100) "down" Option.none (dtm 5)
    ⟨7, some (dtm 10)⟩ (dtm 10) 100 rfl rfl (by norm_num [dtm])

/-- C6: the claim that `_current_billing_period_start` returns a valid date
without raising for every clamped reset day fails on the code: with reset
day 31 during 2024-05-15 the previous-month branch constructs
`date(2024, 4, 31)`, which raises `ValueError` (April has 30 days). -/
theorem billing_period_start_short_month_raises :
    currentBillingPeriodStart ⟨0, ⟨2024, 5, 15⟩⟩ 31 = .error .valueError ∧
    mkPyDate 2024 4 31 = .error .valueError :=
  ⟨rfl, rfl⟩

/-- C7: when the window key computed from the sample differs from the stored
one — a new calendar day for the daily counters (under any rate payload,
update interval and prior state), or a new billing-period start for the
monthly counters — the update resets the accumulated value to 0, adopts the
new window key, restarts the baseline at the sample, and applies no
increment for the rollover sample. -/
theorem usage_window_rollover_resets (payload : Py) (direction : String)
    (updateInterval : Option ℚ) (now : PyDateTime) (s : TodayState)
    (ms : MonthState) (cur : PyDate) :
    (s.day_str ≠ some now.date →
      handleUpdateToday payload direction updateInterval now s
        = ⟨⟨0, some now⟩, some now.date⟩) ∧
    (currentBillingPeriodStart now ms.reset_day = .ok cur →
      ms.period_start ≠ some cur →
      handleUpdateMonth payload direction updateInterval now ms
        = .ok ⟨⟨0, some now⟩, some cur, ms.reset_day⟩) := by
  constructor
  · intro hday
    unfold handleUpdateToday
    rw [if_neg hday]
    cases hr : getRateBytesPerSec payload direction with
    | none => simp [integrate, hr]
    | some r => simp [integrate, hr]
  · intro hcur hper
    unfold handleUpdateMonth
    rw [hcur]
    dsimp only
    rw [if_neg hper]
    cases hr : getRateBytesPerSec payload direction with
    | none => simp [integrate, hr]
    | some r => simp [integrate, hr]

/-- C7 witness: a stored day 2024-05-01 rolling to 2024-05-02, and a stored
billing period 2024-04-01 rolling to 2024-05-01 (reset day 1), each with a
nonzero accumulated value that is reset with no increment. -/
theorem usage_window_rollover_resets_witness :
    handleUpdateToday (mkRatePayload 100) "down" (some 30) ⟨86400, ⟨2024, 5, 2⟩⟩
      ⟨⟨7, some (dtm 0)⟩, some ⟨2024, 5, 1⟩⟩
      = ⟨⟨0, some ⟨86400, ⟨2024, 5, 2⟩⟩⟩, some ⟨2024, 5, 2⟩⟩ ∧
    handleUpdateMonth (mkRatePayload 100) "down" (some 30) ⟨86400, ⟨2024, 5, 2⟩⟩
      ⟨⟨7, some (dtm 0)⟩, some ⟨2024, 4, 1⟩, 1⟩
      = .ok ⟨⟨0, some ⟨86400, ⟨2024, 5, 2⟩⟩⟩, some ⟨2024, 5, 1⟩, 1⟩ :=
  ⟨(usage_window_rollover_resets (mkRatePayload 100) "down" (some 30)
      ⟨86400, ⟨2024, 5, 2⟩⟩ ⟨⟨7, some (dtm 0)⟩, some ⟨2024, 5, 1⟩⟩
      ⟨⟨7, some (dtm 0)⟩, some ⟨2024, 4, 1⟩, 1⟩ ⟨2024, 5, 1⟩).1 (by decide),
   (usage_window_rollover_resets (mkRatePayload 100) "down" (some 30)
      ⟨86400, ⟨2024, 5, 2⟩⟩ ⟨⟨7, some (dtm 0)⟩, some ⟨2024, 5, 1⟩⟩
      ⟨⟨7, some (dtm 0)⟩, some ⟨2024, 4, 1⟩, 1⟩ ⟨2024, 5, 1⟩).2 rfl (by decide)⟩

/-- C8: within an unchanged window the reported total never decreases: for
any update whose integration step would compute a value lower than the
currently accumulated one (for example from a negative rate sample), the
daily and monthly handlers keep the previous value. -/
theorem usage_monotonic_clamp (payload : Py) (direction : String)
    (updateInterval : Option ℚ) (now : PyDateTime) (s : TodayState)
    (ms : MonthState) (cur : PyDate) :
    (s.day_str = some now.date →
      (integrate payload direction updateInterval now s.tot).value_mb < s.tot.value_mb →
      (handleUpdateToday payload direction updateInterval now s).tot.value_mb
        = s.tot.value_mb) ∧
    (currentBillingPeriodStart now ms.reset_day = .ok cur →
      ms.period_start = some cur →
      (integrate payload direction updateInterval now ms.tot).value_mb < ms.tot.value_mb →
      (handleUpdateMonth payload direction updateInterval now ms).map
        (fun x => x.tot.value_mb) = .ok ms.tot.value_mb) := by
  constructor
  · intro hday hlt
    unfold handleUpdateToday
    rw [if_pos hday]
    simp [hlt]
  · intro hcur hper hlt
    unfold handleUpdateMonth
    rw [hcur]
    dsimp only
    rw [if_pos hper]
    simp [hlt, Except.map]

/-- C8 witness: accumulated 2000 MB within the current day (and billing
period), and a −52428800 B/s sample over 10 s whose integration would
compute 1500 MB; the reported value stays 2000. -/
theorem usage_monotonic_clamp_witness :
    (handleUpdateToday (mkRatePayload (-52428800)) "down" (some 30) (dtm 10)
      ⟨⟨2000, some (dtm 0)⟩, some ⟨2024, 5, 1⟩⟩).tot.value_mb = 2000 ∧
    (handleUpdateMonth (mkRatePayload (-52428800)) "down" (some 30) (dtm 10)
      ⟨⟨2000, some (dtm 0)⟩, some ⟨2024, 5, 1⟩, 1⟩).map
        (fun x => x.tot.value_mb) = .ok 2000 := by
  have hlt : (integrate (mkRatePayload (-52428800)) "down" (some 30) (dtm 10)
      (⟨2000, some (dtm 0)⟩ : TotState)).value_mb < 2000 := by
    simp [integrate, getRateBytesPerSec, pickGateway, pickGatewayGo, mkRatePayload,
      pyGet, pyGetD, dictGet, pyOr, pyIsDict, pyEqStr, truthy, pyFloat, dtm]
    norm_num
  exact ⟨(usage_monotonic_clamp (mkRatePayload (-52428800)) "down" (some 30) (dtm 10)
      ⟨⟨2000, some (dtm 0)⟩, some ⟨2024, 5, 1⟩⟩
      ⟨⟨2000, some (dtm 0)⟩, some ⟨2024, 5, 1⟩, 1⟩ ⟨2024, 5, 1⟩).1 rfl hlt,
    (usage_monotonic_clamp (mkRatePayload (-52428800)) "down" (some 30) (dtm 10)
      ⟨⟨2000, some (dtm 0)⟩, some ⟨2024, 5, 1⟩⟩
      ⟨⟨2000, some (dtm 0)⟩, some ⟨2024, 5, 1⟩, 1⟩ ⟨2024, 5, 1⟩).2 rfl rfl hlt⟩

/-- C9: when the gateway MAC resolves (directly or after the one refresh
retry) from an idle start, `_run_speedtest_now` ends with the running flag
false and broadcasts the flag signal exactly twice (entering and leaving
Running), whether the remote call path succeeds or raises, and with or
without a rates coordinator. -/
theorem speedtest_run_idle_two_broadcasts (mac1 mac2 : Option String)
    (remoteRaises hasRates : Bool)
    (hres : truthyOptStr (if truthyOptStr mac1 then mac1 else mac2) = true) :
    (runSpeedtestNow false mac1 mac2 remoteRaises hasRates).1 = false ∧
    (runSpeedtestNow false mac1 mac2 remoteRaises hasRates).2.count Ev.dispatch = 2 := by
  by_cases h1 : truthyOptStr mac1 = true
  · rw [if_pos h1] at hres
    constructor <;>
      · unfold runSpeedtestNow setSpeedtestRunning
        simp only [h1, hres, if_true, not_true, if_neg, ite_false, ite_true]
        cases remoteRaises <;> cases hasRates <;> simp [hres, List.count_cons, List.count_append]
  · rw [if_neg h1] at hres
    replace h1 : truthyOptStr mac1 = false := by
      cases hb : truthyOptStr mac1
      · rfl
      · exact absurd hb h1
    constructor <;>
      · unfold runSpeedtestNow setSpeedtestRunning
        simp only [h1, hres, if_true, not_true, if_neg, ite_false, ite_true]
        cases remoteRaises <;> cases hasRates <;> simp [hres, List.count_cons, List.count_append]

/-- C9 witness: a directly resolvable MAC with the remote call raising and a
rates coordinator present. -/
theorem speedtest_run_idle_two_broadcasts_witness :
    (runSpeedtestNow false (some "24:5a:4c:01:02:03") Option.none true true).1 = false ∧
    (runSpeedtestNow false (some "24:5a:4c:01:02:03") Option.none true true).2.count
      Ev.dispatch = 2 :=
  speedtest_run_idle_two_broadcasts (some "24:5a:4c:01:02:03") Option.none true true rfl

/-- C5 counterexample: the claim that a trigger issued while `in_progress`
is already true performs no remote speed-test action call is false: with the
flag true on entry and a resolvable gateway MAC, `_run_speedtest_now` still
issues the remote call. -/
theorem speedtest_trigger_while_running_cex :
    Ev.runSpeedtest "24:5a:4c:01:02:03"
      ∈ (runSpeedtestNow true (some "24:5a:4c:01:02:03") Option.none false true).2 := by
  decide

/-- C5 (amended): the running flag does not gate `_run_speedtest_now`: a
trigger issued while `in_progress` is already true still performs the remote
speed-test action call; it broadcasts only once (the flag was already true,
so only the final transition to idle is announced) and leaves `in_progress`
false. Only the button entity has a per-button lock that drops presses while
a press-initiated run is active. -/
theorem speedtest_trigger_while_running_not_gated (m : String) (mac2 : Option String)
    (remoteRaises hasRates : Bool) (hm1 : truthyOptStr (some m) = true) :
    Ev.runSpeedtest m ∈ (runSpeedtestNow true (some m) mac2 remoteRaises hasRates).2 ∧
    (runSpeedtestNow true (some m) mac2 remoteRaises hasRates).1 = false ∧
    (runSpeedtestNow true (some m) mac2 remoteRaises hasRates).2.count Ev.dispatch = 1 := by
  refine ⟨?_, ?_, ?_⟩ <;>
    · unfold runSpeedtestNow setSpeedtestRunning
      simp only [hm1, if_true, not_true, if_neg, ite_false, ite_true]
      cases remoteRaises <;> cases hasRates <;>
        simp [List.count_cons, List.count_append]

/-- C5 amended-claim witness: a concrete MAC with the remote call
succeeding. -/
theorem speedtest_trigger_while_running_not_gated_witness :
    Ev.runSpeedtest "aa:bb" ∈ (runSpeedtestNow true (some "aa:bb") Option.none false false).2 ∧
    (runSpeedtestNow true (some "aa:bb") Option.none false false).1 = false ∧
    (runSpeedtestNow true (some "aa:bb") Option.none false false).2.count Ev.dispatch = 1 :=
  speedtest_trigger_while_running_not_gated "aa:bb" Option.none false false (by decide)

/-! ## Evaluation lemmas for constructed gateways -/

/-- A constructed gateway dict is truthy. -/
theorem truthy_mkGw (u : UplinkFields) (w1 w2 : SlotFields) (leg : Option Bool) :
    truthy (mkGw u w1 w2 leg) = true := by cases leg <;> rfl

/-- String values are truthy when nonempty. -/
theorem truthy_str (s : String) : truthy (.str s) = !s.isEmpty := rfl

/-- Truthiness of a boolean value. -/
theorem truthy_bool (b : Bool) : truthy (.bool b) = b := rfl

/-- An uplink section dict is truthy. -/
theorem truthy_uplinkDict (u : UplinkFields) : truthy (uplinkDict u) = true := rfl

/-- A slot section dict is truthy. -/
theorem truthy_slotDict (w : SlotFields) : truthy (slotDict w) = true := rfl

/-- `pyOr` keeps a truthy first argument. -/
theorem pyOr_of_truthy (a b : Py) (h : truthy a = true) : pyOr a b = a := by
  simp [pyOr, h]

/-- Python `==` on two string values is string equality. -/
theorem pyEqB_str (a b : String) : pyEqB (.str a) (.str b) = (a == b) := rfl

/-- `uplink` lookup on a constructed gateway. -/
theorem pyGet_mkGw_uplink (u : UplinkFields) (w1 w2 : SlotFields) (leg : Option Bool) :
    pyGet (mkGw u w1 w2 leg) "uplink" = uplinkDict u := by cases leg <;> rfl

/-- The `wan1` slot section of a constructed gateway. -/
theorem wanSection_mkGw_wan1 (u : UplinkFields) (w1 w2 : SlotFields) (leg : Option Bool) :
    wanSection (mkGw u w1 w2 leg) "wan1" = slotDict w1 := by cases leg <;> rfl

/-- The `wan2` slot section of a constructed gateway. -/
theorem wanSection_mkGw_wan2 (u : UplinkFields) (w1 w2 : SlotFields) (leg : Option Bool) :
    wanSection (mkGw u w1 w2 leg) "wan2" = slotDict w2 := by cases leg <;> rfl

/-- The legacy `wan` section of a constructed gateway without one. -/
theorem wanSection_mkGw_wan_none (u : UplinkFields) (w1 w2 : SlotFields) :
    wanSection (mkGw u w1 w2 Option.none) "wan" = Py.none := rfl

/-- The legacy `wan` section of a constructed gateway with one. -/
theorem wanSection_mkGw_wan_some (u : UplinkFields) (w1 w2 : SlotFields) (b : Bool) :
    wanSection (mkGw u w1 w2 (some b)) "wan" = Py.dict [("up", Py.bool b)] := rfl

/-- Field lookups on a constructed uplink section. -/
theorem pyGet_uplinkDict_ip (u : UplinkFields) : pyGet (uplinkDict u) "ip" = .str u.ip := rfl

/-- `ifname` lookup on a constructed uplink section. -/
theorem pyGet_uplinkDict_ifname (u : UplinkFields) :
    pyGet (uplinkDict u) "ifname" = .str u.ifname := rfl

/-- `name` lookup on a constructed uplink section. -/
theorem pyGet_uplinkDict_name (u : UplinkFields) :
    pyGet (uplinkDict u) "name" = .str u.name := rfl

/-- `comment` lookup on a constructed uplink section. -/
theorem pyGet_uplinkDict_comment (u : UplinkFields) :
    pyGet (uplinkDict u) "comment" = .str u.comment := rfl

/-- `ip` lookup on a constructed slot section. -/
theorem pyGet_slotDict_ip (w : SlotFields) : pyGet (slotDict w) "ip" = .str w.ip := rfl

/-- `ifname` lookup on a constructed slot section. -/
theorem pyGet_slotDict_ifname (w : SlotFields) :
    pyGet (slotDict w) "ifname" = .str w.ifname := rfl

/-- `name` lookup on a constructed slot section. -/
theorem pyGet_slotDict_name (w : SlotFields) : pyGet (slotDict w) "name" = .str w.name := rfl

/-- `comment` lookup on a constructed slot section. -/
theorem pyGet_slotDict_comment (w : SlotFields) :
    pyGet (slotDict w) "comment" = .str w.comment := rfl

/-- `up` lookup on a constructed slot section. -/
theorem pyGet_slotDict_up (w : SlotFields) : pyGet (slotDict w) "up" = .bool w.up := rfl

/-- Lookup on the empty dict yields `None`. -/
theorem pyGet_dictEmpty (k : String) : pyGet (.dict []) k = Py.none := rfl

/-- C10: for a gateway whose uplink matches no slot by IP, interface name,
or normalized name/comment, active-WAN inference returns the unique slot
reporting up = true when exactly one of the two slots is up; when both or
neither slot is up and no legacy `wan` section reports up, it returns the
unknown result (`None`) rather than guessing. -/
theorem infer_active_wan_fallback_up (u : UplinkFields) (w1 w2 : SlotFields)
    (leg : Option Bool)
    (hip : u.ip ≠ "" → u.ip ≠ w1.ip ∧ u.ip ≠ w2.ip)
    (hif : u.ifname ≠ "" → u.ifname ≠ w1.ifname ∧ u.ifname ≠ w2.ifname)
    (hn1 : setInterNonempty [pyNorm (.str u.name), pyNorm (.str u.comment)]
      [pyNorm (.str w1.name), pyNorm (.str w1.comment)] = false)
    (hn2 : setInterNonempty [pyNorm (.str u.name), pyNorm (.str u.comment)]
      [pyNorm (.str w2.name), pyNorm (.str w2.comment)] = false) :
    (w1.up = true → w2.up = false →
      (inferActiveWanId (mkGw u w1 w2 leg)).1 = some "WAN1") ∧
    (w2.up = true → w1.up = false →
      (inferActiveWanId (mkGw u w1 w2 leg)).1 = some "WAN2") ∧
    (w1.up = w2.up → legacyUpB leg = false →
      (inferActiveWanId (mkGw u w1 w2 leg)).1 = Option.none) := by
  have hc1 : (!u.ip.isEmpty && (u.ip == w1.ip)) = false := by
    by_cases he : u.ip = ""
    · simp [he]
      intro h
      exact absurd h (by decide)
    · have hne : (u.ip == w1.ip) = false := beq_eq_false_iff_ne.mpr (hip he).1
      simp [hne]
  have hc2 : (!u.ip.isEmpty && (u.ip == w2.ip)) = false := by
    by_cases he : u.ip = ""
    · simp [he]
      intro h
      exact absurd h (by decide)
    · have hne : (u.ip == w2.ip) = false := beq_eq_false_iff_ne.mpr (hip he).2
      simp [hne]
  have hc3 : (!u.ifname.isEmpty && (u.ifname == w1.ifname)) = false := by
    by_cases he : u.ifname = ""
    · simp [he]
      intro h
      exact absurd h (by decide)
    · have hne : (u.ifname == w1.ifname) = false := beq_eq_false_iff_ne.mpr (hif he).1
      simp [hne]
  have hc4 : (!u.ifname.isEmpty && (u.ifname == w2.ifname)) = false := by
    by_cases he : u.ifname = ""
    · simp [he]
      intro h
      exact absurd h (by decide)
    · have hne : (u.ifname == w2.ifname) = false := beq_eq_false_iff_ne.mpr (hif he).2
      simp [hne]
  unfold inferActiveWanId
  simp only [truthy_mkGw, pyGet_mkGw_uplink, wanSection_mkGw_wan1, wanSection_mkGw_wan2,
    truthy_uplinkDict, truthy_slotDict, pyOr_of_truthy, pyGet_uplinkDict_ip,
    pyGet_uplinkDict_ifname, pyGet_uplinkDict_name, pyGet_uplinkDict_comment,
    pyGet_slotDict_ip, pyGet_slotDict_ifname, pyGet_slotDict_name, pyGet_slotDict_comment,
    pyGet_slotDict_up, truthy_str, truthy_bool, pyEqB_str, not_true, if_false,
    Bool.false_eq_true, ite_false, ite_true]
  simp only [hc1, hc2, hc3, hc4, hn1, hn2, Bool.false_eq_true, if_false, ite_false]
  refine ⟨?_, ?_, ?_⟩
  · intro h1 h2
    simp [h1, h2]
  · intro h1 h2
    simp [h1, h2]
  · intro h1 hleg
    cases hw : w1.up <;> rw [hw] at h1 <;> rw [← h1] <;> simp only [Bool.and_not_self,
      Bool.not_true, Bool.not_false, Bool.and_false, Bool.false_and, Bool.and_self,
      Bool.and_true, Bool.true_and, Bool.false_eq_true, if_false, ite_false] <;>
      cases leg with
      | none =>
        simp [wanSection_mkGw_wan_none, pyOr, truthy, pyGet_dictEmpty]
      | some b =>
        cases b
        · simp [wanSection_mkGw_wan_some, pyOr, truthy, pyGet, pyGetD, dictGet]
        · simp [legacyUpB] at hleg

/-- C10 witness: a gateway with falsy uplink IP/ifname and distinct
normalized names, exercised for slot 1 up, slot 2 up, and both up (unknown),
with no legacy `wan` section. -/
theorem infer_active_wan_fallback_up_witness :
    (inferActiveWanId (mkGw ⟨"", "", "uplink0", "c0"⟩
      ⟨"1.1.1.1", "eth8", "a", "ca", true⟩ ⟨"2.2.2.2", "eth9", "b", "cb", false⟩
      Option.none)).1 = some "WAN1" ∧
    (inferActiveWanId (mkGw ⟨"", "", "uplink0", "c0"⟩
      ⟨"1.1.1.1", "eth8", "a", "ca", false⟩ ⟨"2.2.2.2", "eth9", "b", "cb", true⟩
      Option.none)).1 = some "WAN2" ∧
    (inferActiveWanId (mkGw ⟨"", "", "uplink0", "c0"⟩
      ⟨"1.1.1.1", "eth8", "a", "ca", true⟩ ⟨"2.2.2.2", "eth9", "b", "cb", true⟩
      Option.none)).1 = Option.none :=
  ⟨(infer_active_wan_fallback_up ⟨"", "", "uplink0", "c0"⟩
      ⟨"1.1.1.1", "eth8", "a", "ca", true⟩ ⟨"2.2.2.2", "eth9", "b", "cb", false⟩
      Option.none (by decide) (by decide) (by decide) (by decide)).1 rfl rfl,
   (infer_active_wan_fallback_up ⟨"", "", "uplink0", "c0"⟩
      ⟨"1.1.1.1", "eth8", "a", "ca", false⟩ ⟨"2.2.2.2", "eth9", "b", "cb", true⟩
      Option.none (by decide) (by decide) (by decide) (by decide)).2.1 rfl rfl,
   (infer_active_wan_fallback_up ⟨"", "", "uplink0", "c0"⟩
      ⟨"1.1.1.1", "eth8", "a", "ca", true⟩ ⟨"2.2.2.2", "eth9", "b", "cb", true⟩
      Option.none (by decide) (by decide) (by decide) (by decide)).2.2 rfl rfl⟩
